import Mathlib

/-!
Shallow embedding of `src/aoai_simulated_api/generator/openai.py`, the
synthetic Azure-OpenAI response generator: the deployment-name resolver,
the three request handlers (embeddings, completions, chat completions),
and the chat-completion streaming emitter.  External collaborators
(route matcher, tokenizer, lorem word source, nanoid, clock, RNG) are
parameters gathered in `Externals`; everything the Python file itself
computes is transcribed into executable Lean definitions.
-/

set_option autoImplicit false

namespace AoaiSim

/-- A JSON value, as produced by Python dict / list / scalar literals.
Python `float` values are carried as exact rationals (`fnum`);
`int` values as `num`.  Object fields keep insertion order. -/
inductive Json where
  | null
  | bool (b : Bool)
  | num (n : Int)
  | fnum (q : Rat)
  | str (s : String)
  | arr (items : List Json)
  | obj (fields : List (String × Json))

/-- Python `d[key]` lookup restricted to objects: first field with the key. -/
def Json.getField : Json → String → Option Json
  | .obj fields, key => (fields.find? (fun p => p.1 = key)).map (fun p => p.2)
  | _, _ => none

/-- Python `xs[i]` on a JSON array. -/
def jIdx : Json → Nat → Option Json
  | .arr items, i => items.get? i
  | _, _ => none

/-- Python `d.get(key, default)`. -/
def jsonGetD (j : Json) (key : String) (dflt : Json) : Json :=
  (j.getField key).getD dflt

/-- Python `d[key]`: raises `KeyError` when absent. -/
def jsonIndex (j : Json) (key : String) : Except String Json :=
  match j.getField key with
  | some v => .ok v
  | none => .error ("KeyError: " ++ key)

/-- Python truthiness of a JSON value (`if x:`). -/
def truthy : Json → Bool
  | .null => false
  | .bool b => b
  | .num n => n != 0
  | .fnum q => q != 0
  | .str s => s != ""
  | .arr items => !items.isEmpty
  | .obj fields => !fields.isEmpty

/-- A JSON value used as an integer token budget.  (Python would also
accept a float here; the model restricts numeric request fields to the
integers the API documents.) -/
def asInt : Json → Except String Int
  | .num n => .ok n
  | _ => .error "TypeError: expected an integer"

/-- Modelled from the spec: the five published-value keys imported from
`aoai_simulated_api.constants` (a module not part of the shown source);
the spec describes them only as fixed, distinct markers read by the
rate limiter, so they are modelled as an enumeration. -/
inductive SimulatorKey where
  | limiter
  | operation_name
  | deployment_name
  | openai_completion_tokens
  | openai_total_tokens
  deriving DecidableEq

/-- A value stored in the request context's published-values map:
the handlers store strings and token counts. -/
inductive SimValue where
  | str (s : String)
  | num (n : Nat)
  deriving DecidableEq

/-- The request context's mutable published-values map (`context.values`). -/
def ValuesMap : Type := SimulatorKey → Option SimValue

/-- Python dict assignment `m[k] = v`. -/
def dictSet (m : ValuesMap) (k : SimulatorKey) (v : SimValue) : ValuesMap :=
  fun q => if q = k then some v else m q

/-- The inbound HTTP request: path, method and (already parsed) JSON body. -/
structure SimRequest where
  path : String
  method : String
  body : Json

/-- The per-request context handed to each handler: the request, the
configuration's deployment registry (`context.config.openai_deployments`,
a mapping deployment name → model name, possibly absent), and the
published-values map. -/
structure RequestContext where
  request : SimRequest
  openai_deployments : Option (List (String × String))
  values : ValuesMap

/-- Process-wide mutable state of the generator module: the
`missing_deployment_names` set (modelled as a list inserted into at most
once per name) and the log of warning diagnostics emitted (one entry,
the deployment name, per `logger.warning` call). -/
structure GenState where
  missing_deployment_names : List String
  warnings : List String
  deriving DecidableEq

/-- External collaborators, specified only at their interfaces:
`context.is_route_match`, the tokenizer (`num_tokens_from_string`,
`num_tokens_from_messages`), the lorem word source (`get_word count`
modelled, per the spec's filler-words contract, as the list of words
whose space-joined string `lorem.get_word(count=...)` returns),
`nanoid.non_secure_generate` and `int(time.time())` (indexed by call),
and `random.random()` (indexed by embedding index and position). -/
structure Externals where
  is_route_match : SimRequest → String → List String → Bool × List (String × String)
  num_tokens_from_string : String → String → Nat
  num_tokens_from_messages : Json → String → Nat
  get_word : Nat → List String
  non_secure_generate : Nat → Nat → String
  time : Nat → Int
  random : Nat → Nat → Rat

/-- `TOKEN_TO_WORD_FACTOR = 0.72`, carried exactly. -/
def TOKEN_TO_WORD_FACTOR : Rat := 72 / 100

/-- `int(TOKEN_TO_WORD_FACTOR * max_tokens)`: Python truncates the exact
product `(72/100) * max_tokens` toward zero, which over ℤ is the
truncating division `(72 * max_tokens).tdiv 100`. -/
def tokens_to_words (max_tokens : Int) : Int :=
  (72 * max_tokens).tdiv 100

/-- `default_embedding_size = 1536`. -/
def default_embedding_size : Nat := 1536

/-- The registry lookup performed by `get_model_name_from_deployment_name`:
`if deployments:` (absent or empty is falsy) then `deployments.get(name)`
then `deployment.model`. -/
def registryLookup (deployments : Option (List (String × String)))
    (deployment_name : String) : Option String :=
  match deployments with
  | some ds =>
    if ds.isEmpty then none
    else (ds.find? (fun p => p.1 = deployment_name)).map (fun p => p.2)
  | none => none

/-- `get_model_name_from_deployment_name`: resolves a deployment name to a
model name, falling back to `"gpt-3.5-turbo-0613"` with a warn-once
side effect on the missing-deployment set. -/
def get_model_name_from_deployment_name
    (deployments : Option (List (String × String))) (st : GenState)
    (deployment_name : String) : String × GenState :=
  match registryLookup deployments deployment_name with
  | some model => (model, st)
  | none =>
    let default_model := "gpt-3.5-turbo-0613"
    if deployment_name ∈ st.missing_deployment_names then
      (default_model, st)
    else
      (default_model,
       { missing_deployment_names := deployment_name :: st.missing_deployment_names,
         warnings := st.warnings ++ [deployment_name] })

/-- `_generate_embedding(index, embedding_size)`: one embedding object
with `embedding_size` pseudo-random components `(random() - 0.5) * 4`. -/
def _generate_embedding (ext : Externals) (index : Nat)
    (embedding_size : Nat := default_embedding_size) : Json :=
  .obj [("object", .str "embedding"),
        ("index", .num index),
        ("embedding",
         .arr ((List.range embedding_size).map
           (fun j => .fnum ((ext.random index j - 1/2) * 4))))]

/-- The static content-safety stub written (four times over) in the source:
all four categories unfiltered with severity `"safe"`. -/
def content_filter_results : Json :=
  .obj [("hate", .obj [("filtered", .bool false), ("severity", .str "safe")]),
        ("self_harm", .obj [("filtered", .bool false), ("severity", .str "safe")]),
        ("sexual", .obj [("filtered", .bool false), ("severity", .str "safe")]),
        ("violence", .obj [("filtered", .bool false), ("severity", .str "safe")])]

/-- One streamed chat-completion chunk, as the dict built inside
`send_words` for call index `i`, delta content `content` (the word with
its space prefix) and raw word `word`. -/
def chat_chunk (ext : Externals) (i : Nat) (model_name content word : String) : Json :=
  .obj [("id", .str ("chatcmpl-" ++ ext.non_secure_generate i 29)),
        ("object", .str "chat.completion.chunk"),
        ("created", .num (ext.time i)),
        ("model_name", .str model_name),
        ("system_fingerprint", .null),
        ("choices",
         .arr [.obj [
           ("delta", .obj [
             ("content", .str content),
             ("function_call", .null),
             ("role", .null),
             ("tool_calls", .null),
             ("finish_reason", .null),
             ("index", .num 0),
             ("logprobs", .null),
             ("content_filter_results", content_filter_results)]),
           ("message", .obj [("role", .str "assistant"), ("content", .str word)])]])]

/-- One element of the streamed sequence: a JSON chunk (serialized on the
wire as `"data: " ++ json ++ "\n"`), the blank framing line (`"\n"`), or
the terminal literal `"[DONE]"` sentinel (not JSON-wrapped). -/
inductive StreamEmission where
  | dataChunk (chunk : Json)
  | blankLine
  | doneSentinel

/-- The wire string of one emission, given a JSON serializer. -/
def renderEmission (dump : Json → String) : StreamEmission → String
  | .dataChunk c => "data: " ++ dump c ++ "\n"
  | .blankLine => "\n"
  | .doneSentinel => "[DONE]"

/-- Python `str.split(" ")` on the underlying character list: splits at
every single space, keeping empty parts (`"".split(" ") == [""]`,
`"a  b".split(" ") == ["a", "", "b"]`). -/
def splitSpaceChars : List Char → List (List Char)
  | [] => [[]]
  | c :: cs =>
    if c = ' ' then [] :: splitSpaceChars cs
    else
      match splitSpaceChars cs with
      | [] => [[c]]
      | part :: parts => (c :: part) :: parts

/-- Python `words.split(" ")`. -/
def pySplitSpace (s : String) : List String :=
  (splitSpaceChars s.data).map (fun cs => String.mk cs)

/-- The loop body of `send_words`: iterates over the remaining words with
the current `space` prefix (`""` on the first iteration, `" "` after)
and the chunk call counter `i`; after the last word yields `"[DONE]"`. -/
def send_words_from (ext : Externals) (model_name : String) :
    String → Nat → List String → List StreamEmission
  | _, _, [] => [.doneSentinel]
  | space, i, word :: rest =>
    .dataChunk (chat_chunk ext i model_name (space ++ word) word)
      :: .blankLine
      :: send_words_from ext model_name " " (i + 1) rest

/-- `send_words()`: splits the filler text on single spaces and emits one
chunk per word followed by the terminal sentinel. -/
def send_words (ext : Externals) (model_name words : String) : List StreamEmission :=
  send_words_from ext model_name "" 0 (pySplitSpace words)

/-- A handler's successful HTTP result: a JSON `Response` (status code,
pre-serialization body, content type) or a `StreamingResponse`. -/
inductive HandlerResponse where
  | jsonResponse (status_code : Nat) (content : Json) (content_type : String)
  | streamingResponse (emissions : List StreamEmission)

/-- What a handler call produces: `None`/a response, the request context's
published-values map afterwards, and the module state afterwards — or an
uncaught Python exception (`Except.error`). -/
def HandlerResult : Type :=
  Except String (Option HandlerResponse × ValuesMap × GenState)

/-- `path_params[key]`: raises `KeyError` when the matcher produced no such
parameter. -/
def paramLookup (params : List (String × String)) (key : String) :
    Except String String :=
  match params.find? (fun p => p.1 = key) with
  | some p => .ok p.2
  | none => .error ("KeyError: " ++ key)

/-- The embeddings loop over a list input: accumulates token counts and
appends one generated embedding per item (non-string items fail in the
tokenizer). -/
def embedLoop (ext : Externals) (model_name : String) :
    Nat → Nat → List Json → List Json → Except String (Nat × List Json)
  | tokens, _, embeddings, [] => .ok (tokens, embeddings)
  | tokens, index, embeddings, item :: rest =>
    match item with
    | .str s =>
      embedLoop ext model_name (tokens + ext.num_tokens_from_string s model_name)
        (index + 1) (embeddings ++ [_generate_embedding ext index]) rest
    | _ => .error "TypeError: expected string input item"

/-- `azure_openai_embedding(context)`. -/
def azure_openai_embedding (ext : Externals) (ctx : RequestContext)
    (st : GenState) : HandlerResult :=
  match ext.is_route_match ctx.request
      "/openai/deployments/{deployment}/embeddings" ["POST"] with
  | (false, _) => .ok (none, ctx.values, st)
  | (true, path_params) => do
    let deployment_name ← paramLookup path_params "deployment"
    let request_body := ctx.request.body
    let r := get_model_name_from_deployment_name ctx.openai_deployments st deployment_name
    let model_name := r.1
    let st := r.2
    let request_input ← jsonIndex request_body "input"
    let te ← match request_input with
      | .str s =>
        .ok (ext.num_tokens_from_string s model_name, [_generate_embedding ext 0])
      | .arr items => embedLoop ext model_name 0 0 [] items
      | _ => .error "TypeError: input is not iterable"
    let tokens := te.1
    let embeddings := te.2
    let response_data : Json :=
      .obj [("object", .str "list"),
            ("data", .arr embeddings),
            ("model", .str "ada"),
            ("usage", .obj [("prompt_tokens", .num tokens),
                            ("total_tokens", .num tokens)])]
    let values := dictSet ctx.values .limiter (.str "openai")
    let values := dictSet values .operation_name (.str "embeddings")
    let values := dictSet values .deployment_name (.str deployment_name)
    let values := dictSet values .openai_total_tokens (.num tokens)
    .ok (some (.jsonResponse 200 response_data "application/json"), values, st)

/-- `azure_openai_completion(context)`. -/
def azure_openai_completion (ext : Externals) (ctx : RequestContext)
    (st : GenState) : HandlerResult :=
  match ext.is_route_match ctx.request
      "/openai/deployments/{deployment}/completions" ["POST"] with
  | (false, _) => .ok (none, ctx.values, st)
  | (true, path_params) => do
    let deployment_name ← paramLookup path_params "deployment"
    let r := get_model_name_from_deployment_name ctx.openai_deployments st deployment_name
    let model_name := r.1
    let st := r.2
    let request_body := ctx.request.body
    let promptJson ← jsonIndex request_body "prompt"
    let prompt ← match promptJson with
      | .str s => .ok s
      | _ => (.error "TypeError: prompt is not a string" : Except String String)
    let prompt_tokens := ext.num_tokens_from_string prompt model_name
    let max_tokens ← asInt (jsonGetD request_body "max_tokens" (.num 4096))
    let words_to_generate := tokens_to_words max_tokens
    let text := String.intercalate " " (ext.get_word words_to_generate.toNat)
    let completion_tokens := ext.num_tokens_from_string text model_name
    let total_tokens := prompt_tokens + completion_tokens
    let response_body : Json :=
      .obj [("id", .str ("cmpl-" ++ ext.non_secure_generate 0 29)),
            ("object", .str "text_completion"),
            ("created", .num (ext.time 0)),
            ("model", .str model_name),
            ("choices",
             .arr [.obj [("text", .str text),
                         ("index", .num 0),
                         ("finish_reason", .str "length"),
                         ("logprobs", .null)]]),
            ("usage", .obj [("prompt_tokens", .num prompt_tokens),
                            ("completion_tokens", .num completion_tokens),
                            ("total_tokens", .num total_tokens)])]
    let values := dictSet ctx.values .limiter (.str "openai")
    let values := dictSet values .operation_name (.str "completions")
    let values := dictSet values .deployment_name (.str deployment_name)
    let values := dictSet values .openai_completion_tokens (.num completion_tokens)
    let values := dictSet values .openai_total_tokens (.num total_tokens)
    .ok (some (.jsonResponse 200 response_body "application/json"), values, st)

/-- `azure_openai_chat_completion(context)`.  Note that in the streaming
branch the source returns the `StreamingResponse` before reaching the
context-value assignments, so the published-values map is unchanged
there. -/
def azure_openai_chat_completion (ext : Externals) (ctx : RequestContext)
    (st : GenState) : HandlerResult :=
  match ext.is_route_match ctx.request
      "/openai/deployments/{deployment}/chat/completions" ["POST"] with
  | (false, _) => .ok (none, ctx.values, st)
  | (true, path_params) => do
    let request_body := ctx.request.body
    let deployment_name ← paramLookup path_params "deployment"
    let r := get_model_name_from_deployment_name ctx.openai_deployments st deployment_name
    let model_name := r.1
    let st := r.2
    let messages ← jsonIndex request_body "messages"
    let prompt_tokens := ext.num_tokens_from_messages messages model_name
    let max_tokens ← asInt (jsonGetD request_body "max_tokens" (.num 4096))
    let words_to_generate := tokens_to_words max_tokens
    let words := String.intercalate " " (ext.get_word words_to_generate.toNat)
    if truthy (jsonGetD request_body "stream" (.bool false)) then
      .ok (some (.streamingResponse (send_words ext model_name words)), ctx.values, st)
    else
      let text := words
      let completion_tokens := ext.num_tokens_from_string text model_name
      let total_tokens := prompt_tokens + completion_tokens
      let response_body : Json :=
        .obj [("id", .str ("chatcmpl-" ++ ext.non_secure_generate 0 29)),
              ("object", .str "chat.completion"),
              ("created", .num (ext.time 0)),
              ("model", .str model_name),
              ("prompt_filter_results",
               .arr [.obj [("prompt_index", .num 0),
                           ("content_filter_results", content_filter_results)]]),
              ("choices",
               .arr [.obj [("finish_reason", .str "length"),
                           ("index", .num 0),
                           ("message", .obj [("role", .str "assistant"),
                                             ("content", .str text)]),
                           ("content_filter_results", content_filter_results)]]),
              ("usage", .obj [("prompt_tokens", .num prompt_tokens),
                              ("completion_tokens", .num completion_tokens),
                              ("total_tokens", .num total_tokens)])]
      let values := dictSet ctx.values .limiter (.str "openai")
      let values := dictSet values .operation_name (.str "chat-completions")
      let values := dictSet values .deployment_name (.str deployment_name)
      let values := dictSet values .openai_completion_tokens (.num completion_tokens)
      let values := dictSet values .openai_total_tokens (.num total_tokens)
      .ok (some (.jsonResponse 200 response_body "application/json"), values, st)

/-! ### Observation helpers over handler results -/

/-- The JSON body of a successful non-streaming handler result. -/
def handlerBody : HandlerResult → Option Json
  | .ok (some (.jsonResponse _ body _), _, _) => some body
  | _ => none

/-- The emission sequence of a successful streaming handler result. -/
def handlerEmissions : HandlerResult → Option (List StreamEmission)
  | .ok (some (.streamingResponse es), _, _) => some es
  | _ => none

/-- The published value stored under `k` after the handler ran. -/
def publishedValue (res : HandlerResult) (k : SimulatorKey) : Option SimValue :=
  match res with
  | .ok (_, values, _) => values k
  | .error _ => none

/-- The module state after the handler ran (when no exception escaped). -/
def stateAfter : HandlerResult → Option GenState
  | .ok (_, _, st) => some st
  | .error _ => none

/-- A top-level field of the response body. -/
def bodyField (res : HandlerResult) (key : String) : Option Json :=
  (handlerBody res).bind (fun b => b.getField key)

/-- The delta content of one streamed chunk:
`chunk["choices"][0]["delta"]["content"]` as a string. -/
def chunkDeltaContent (chunk : Json) : Option String :=
  match (((chunk.getField "choices").bind (fun c => jIdx c 0)).bind
      (fun c => c.getField "delta")).bind (fun d => d.getField "content") with
  | some (.str s) => some s
  | _ => none

/-- Is this emission a data chunk? -/
def isDataChunk : StreamEmission → Bool
  | .dataChunk _ => true
  | _ => false

/-- Is this emission the terminal sentinel? -/
def isDoneSentinel : StreamEmission → Bool
  | .doneSentinel => true
  | _ => false

/-- The JSON chunks of an emission sequence, in order. -/
def chunksOf (es : List StreamEmission) : List Json :=
  es.filterMap (fun e => match e with | .dataChunk c => some c | _ => none)

/-- A field of `choices[i]` in the response body. -/
def choiceField (res : HandlerResult) (i : Nat) (key : String) : Option Json :=
  ((bodyField res "choices").bind (fun c => jIdx c i)).bind (fun c => c.getField key)

/-- A field of `usage` in the response body. -/
def usageField (res : HandlerResult) (key : String) : Option Json :=
  (bodyField res "usage").bind (fun u => u.getField key)

/-- The length of a JSON array value. -/
def jLen : Json → Option Nat
  | .arr items => some items.length
  | _ => none

/-! ### Concrete fixtures used to witness the theorems on sample inputs -/

/-- Concrete externals: a matcher that matches every probed route with
`deployment = "dep1"`, a character-counting tokenizer, a constant-word
lorem source, and fixed ids, clock and randomness. -/
def wExt : Externals where
  is_route_match := fun _ _ _ => (true, [("deployment", "dep1")])
  num_tokens_from_string := fun s _ => s.length
  num_tokens_from_messages := fun _ _ => 7
  get_word := fun n => List.replicate n "lorem"
  non_secure_generate := fun _ _ => "iiiiiiiiiiiiiiiiiiiiiiiiiiiii"
  time := fun _ => 1700000000
  random := fun _ _ => 1 / 2

/-- The same externals with a matcher that never matches. -/
def wExtNoMatch : Externals :=
  { wExt with is_route_match := fun _ _ _ => (false, []) }

/-- A request context around a given JSON body, with no deployment
registry and an empty published-values map. -/
def wCtx (body : Json) : RequestContext where
  request := { path := "/p", method := "POST", body := body }
  openai_deployments := none
  values := fun _ => none

/-- The same context with deployment `"dep1"` registered to model `"m1"`. -/
def wCtxReg (body : Json) : RequestContext :=
  { wCtx body with openai_deployments := some [("dep1", "m1")] }

/-- Fresh module state: nothing missing, nothing warned. -/
def st0 : GenState := ⟨[], []⟩

/-! ### Shared lemmas -/

theorem ok_bind {α β : Type} (a : α) (f : α → Except String β) :
    (Except.ok a : Except String α) >>= f = f a := rfl

theorem paramLookup_head (k v : String) (rest : List (String × String)) :
    paramLookup ((k, v) :: rest) k = .ok v := by
  simp [paramLookup, List.find?]

theorem chunkDeltaContent_chat_chunk (ext : Externals) (i : Nat) (m c w : String) :
    chunkDeltaContent (chat_chunk ext i m c w) = some c := rfl

theorem embedLoop_strs (ext : Externals) (model_name : String) (xs : List String) :
    ∀ (tokens index : Nat) (acc : List Json),
    embedLoop ext model_name tokens index acc (xs.map Json.str)
      = .ok (tokens + (xs.map (fun s => ext.num_tokens_from_string s model_name)).sum,
             acc ++ (List.range' index xs.length).map (fun i => _generate_embedding ext i)) := by
  induction xs with
  | nil => intro tokens index acc; simp [embedLoop]
  | cons x xs ih =>
    intro tokens index acc
    rw [List.map_cons]
    show embedLoop ext model_name (tokens + ext.num_tokens_from_string x model_name)
        (index + 1) (acc ++ [_generate_embedding ext index]) (xs.map Json.str) = _
    rw [ih]
    simp [List.length_cons, List.range'_succ, Nat.add_assoc]

theorem send_words_from_count_data (ext : Externals) (m : String) :
    ∀ (ws : List String) (sp : String) (i : Nat),
    (send_words_from ext m sp i ws).countP isDataChunk = ws.length := by
  intro ws
  induction ws with
  | nil => intro sp i; simp [send_words_from, isDataChunk, List.countP_cons]
  | cons w ws ih =>
    intro sp i
    simp [send_words_from, List.countP_cons, isDataChunk, ih]

theorem send_words_from_ne_nil (ext : Externals) (m sp : String) (i : Nat)
    (ws : List String) : send_words_from ext m sp i ws ≠ [] := by
  cases ws <;> simp [send_words_from]

theorem getLast_cons_of_ne {α : Type} (a : α) (l : List α) (h : l ≠ []) :
    (a :: l).getLast? = l.getLast? := by
  cases l with
  | nil => exact absurd rfl h
  | cons b l => exact List.getLast?_cons_cons

theorem send_words_from_getLast (ext : Externals) (m : String) :
    ∀ (ws : List String) (sp : String) (i : Nat),
    (send_words_from ext m sp i ws).getLast? = some .doneSentinel := by
  intro ws
  induction ws with
  | nil => intro sp i; simp [send_words_from]
  | cons w ws ih =>
    intro sp i
    show (StreamEmission.dataChunk _ :: StreamEmission.blankLine :: _).getLast? = _
    rw [List.getLast?_cons_cons,
      getLast_cons_of_ne _ _ (send_words_from_ne_nil ext m " " (i + 1) ws)]
    exact ih " " (i + 1)

theorem send_words_from_count_done (ext : Externals) (m : String) :
    ∀ (ws : List String) (sp : String) (i : Nat),
    (send_words_from ext m sp i ws).countP isDoneSentinel = 1 := by
  intro ws
  induction ws with
  | nil => intro sp i; simp [send_words_from, isDoneSentinel, List.countP_cons]
  | cons w ws ih =>
    intro sp i
    simp [send_words_from, List.countP_cons, isDoneSentinel, ih]

theorem send_words_from_chunk_at (ext : Externals) (m : String) :
    ∀ (ws : List String) (sp : String) (i k : Nat) (w : String),
    ws[k]? = some w →
    (chunksOf (send_words_from ext m sp i ws))[k]?
      = some (chat_chunk ext (i + k) m ((if k = 0 then sp else " ") ++ w) w) := by
  intro ws
  induction ws with
  | nil => intro sp i k w h; simp at h
  | cons w' ws ih =>
    intro sp i k w h
    cases k with
    | zero =>
      rw [List.getElem?_cons_zero] at h
      injection h with h
      subst h
      simp [send_words_from, chunksOf, List.filterMap_cons]
    | succ k =>
      rw [List.getElem?_cons_succ] at h
      have hrec := ih " " (i + 1) k w h
      show (chunksOf (StreamEmission.dataChunk _ :: StreamEmission.blankLine :: _))[k + 1]? = _
      rw [chunksOf, List.filterMap_cons, List.filterMap_cons]
      show (chat_chunk ext i m (sp ++ w') w' :: chunksOf (send_words_from ext m " " (i + 1) ws))[k + 1]? = _
      rw [List.getElem?_cons_succ, hrec]
      have hif : (if k = 0 then " " else " ") = (" " : String) := ite_self _
      rw [hif]
      have harith : i + 1 + k = i + (k + 1) := by omega
      rw [harith]
      simp

/-! ### Claim theorems -/

/-- C2: for every deployment name not found in the registry (also when the
registry is absent or empty), `get_model_name_from_deployment_name` returns
the fixed default model `"gpt-3.5-turbo-0613"` on every call and never
fails; the name is inserted into the missing-deployment set and a warning
is emitted only on the first such call; a repeated call with the same
missing name changes nothing and emits no second diagnostic; a call with a
registered name returns its model and leaves the state untouched. -/
theorem deployment_resolver_contract :
    (∀ (deployments : Option (List (String × String))) (st : GenState) (name : String),
      registryLookup deployments name = none →
        (get_model_name_from_deployment_name deployments st name).1 = "gpt-3.5-turbo-0613")
  ∧ (∀ (name : String), registryLookup none name = none)
  ∧ (∀ (name : String), registryLookup (some []) name = none)
  ∧ (∀ (deployments : Option (List (String × String))) (st : GenState) (name : String),
      registryLookup deployments name = none → name ∉ st.missing_deployment_names →
        (get_model_name_from_deployment_name deployments st name).2
          = ⟨name :: st.missing_deployment_names, st.warnings ++ [name]⟩)
  ∧ (∀ (deployments : Option (List (String × String))) (st : GenState) (name : String),
      registryLookup deployments name = none → name ∈ st.missing_deployment_names →
        (get_model_name_from_deployment_name deployments st name).2 = st)
  ∧ (∀ (deployments : Option (List (String × String))) (st : GenState) (name : String),
      registryLookup deployments name = none →
        get_model_name_from_deployment_name deployments
            ((get_model_name_from_deployment_name deployments st name).2) name
          = ("gpt-3.5-turbo-0613", (get_model_name_from_deployment_name deployments st name).2))
  ∧ (∀ (deployments : Option (List (String × String))) (st : GenState) (name model : String),
      registryLookup deployments name = some model →
        get_model_name_from_deployment_name deployments st name = (model, st)) := by
  refine ⟨?_, ?_, ?_, ?_, ?_, ?_, ?_⟩
  · intro deployments st name h
    by_cases hm : name ∈ st.missing_deployment_names <;>
      simp [get_model_name_from_deployment_name, h, hm]
  · intro name; rfl
  · intro name; rfl
  · intro deployments st name h hm
    simp [get_model_name_from_deployment_name, h, hm]
  · intro deployments st name h hm
    simp [get_model_name_from_deployment_name, h, hm]
  · intro deployments st name h
    by_cases hm : name ∈ st.missing_deployment_names
    · simp [get_model_name_from_deployment_name, h, hm]
    · have h2 : (get_model_name_from_deployment_name deployments st name).2
          = ⟨name :: st.missing_deployment_names, st.warnings ++ [name]⟩ := by
        simp [get_model_name_from_deployment_name, h, hm]
      rw [h2]
      simp [get_model_name_from_deployment_name, h]
  · intro deployments st name model h
    simp [get_model_name_from_deployment_name, h]

/-- Witness for C2 at concrete inputs: an absent registry, the fresh state,
name `"dep1"`, and a registry that does register `"dep1"`. -/
theorem deployment_resolver_contract_witness :
    registryLookup none "dep1" = none
  ∧ (get_model_name_from_deployment_name none st0 "dep1").1 = "gpt-3.5-turbo-0613"
  ∧ (get_model_name_from_deployment_name none st0 "dep1").2 = ⟨["dep1"], ["dep1"]⟩
  ∧ get_model_name_from_deployment_name none (⟨["dep1"], ["dep1"]⟩ : GenState) "dep1"
      = ("gpt-3.5-turbo-0613", (⟨["dep1"], ["dep1"]⟩ : GenState))
  ∧ get_model_name_from_deployment_name (some [("dep1", "m1")]) st0 "dep1" = ("m1", st0) := by
  refine ⟨rfl, ?_, ?_, ?_, ?_⟩
  · exact deployment_resolver_contract.1 none st0 "dep1" rfl
  · exact deployment_resolver_contract.2.2.2.1 none st0 "dep1" rfl (by simp [st0])
  · exact deployment_resolver_contract.2.2.2.2.2.1 none st0 "dep1" rfl
  · exact deployment_resolver_contract.2.2.2.2.2.2 (some [("dep1", "m1")]) st0 "dep1" "m1" rfl

/-- C5: for every text completion request, the response satisfies
`usage.total_tokens = usage.prompt_tokens + usage.completion_tokens`,
`choices[0].finish_reason = "length"`, `choices[0].logprobs` null, the id
prefixed `"cmpl-"`, object type `"text_completion"`, and the model field
equal to the resolved model name. -/
theorem completion_response_shape (ext : Externals) (ctx : RequestContext) (st : GenState)
    (dep p : String) (mt : Int) (params : List (String × String))
    (hmatch : ext.is_route_match ctx.request
      "/openai/deployments/{deployment}/completions" ["POST"] = (true, params))
    (hdep : paramLookup params "deployment" = .ok dep)
    (hprompt : ctx.request.body.getField "prompt" = some (.str p))
    (hmax : asInt (jsonGetD ctx.request.body "max_tokens" (.num 4096)) = .ok mt) :
    (let res := azure_openai_completion ext ctx st
     let model_name := (get_model_name_from_deployment_name ctx.openai_deployments st dep).1
     let text := String.intercalate " " (ext.get_word (tokens_to_words mt).toNat)
     let prompt_tokens := ext.num_tokens_from_string p model_name
     let completion_tokens := ext.num_tokens_from_string text model_name
     usageField res "prompt_tokens" = some (.num prompt_tokens)
       ∧ usageField res "completion_tokens" = some (.num completion_tokens)
       ∧ usageField res "total_tokens" = some (.num (prompt_tokens + completion_tokens))
       ∧ choiceField res 0 "finish_reason" = some (.str "length")
       ∧ choiceField res 0 "logprobs" = some .null
       ∧ bodyField res "id" = some (.str ("cmpl-" ++ ext.non_secure_generate 0 29))
       ∧ bodyField res "object" = some (.str "text_completion")
       ∧ bodyField res "model" = some (.str model_name)) := by
  simp only [azure_openai_completion, hmatch, hdep, ok_bind, jsonIndex, hprompt, hmax]
  simp [usageField, choiceField, bodyField, handlerBody, Json.getField, jIdx, List.find?]

/-- Witness for C5: a concrete completion request with prompt `"hi"` and
`max_tokens = 3` against the fixture externals. -/
theorem completion_response_shape_witness :
    usageField (azure_openai_completion wExt
        (wCtx (.obj [("prompt", .str "hi"), ("max_tokens", .num 3)])) st0) "total_tokens"
      = some (.num 13)
  ∧ choiceField (azure_openai_completion wExt
        (wCtx (.obj [("prompt", .str "hi"), ("max_tokens", .num 3)])) st0) 0 "finish_reason"
      = some (.str "length")
  ∧ bodyField (azure_openai_completion wExt
        (wCtx (.obj [("prompt", .str "hi"), ("max_tokens", .num 3)])) st0) "object"
      = some (.str "text_completion")
  ∧ bodyField (azure_openai_completion wExt
        (wCtx (.obj [("prompt", .str "hi"), ("max_tokens", .num 3)])) st0) "model"
      = some (.str "gpt-3.5-turbo-0613") := by
  have h := completion_response_shape wExt
    (wCtx (.obj [("prompt", .str "hi"), ("max_tokens", .num 3)])) st0
    "dep1" "hi" 3 [("deployment", "dep1")] rfl rfl rfl rfl
  exact ⟨h.2.2.1, h.2.2.2.1, h.2.2.2.2.2.2.1, h.2.2.2.2.2.2.2⟩

/-- C3: for every embeddings request whose input is an ordered sequence of
N strings, the response's `data` array has exactly N elements with `index`
fields `0..N-1` in input order, `usage.prompt_tokens` is the sum of the
per-item token counts for the resolved model, and `usage.total_tokens`
equals `usage.prompt_tokens`. -/
theorem embedding_list_response (ext : Externals) (ctx : RequestContext) (st : GenState)
    (dep : String) (xs : List String) (params : List (String × String))
    (hmatch : ext.is_route_match ctx.request
      "/openai/deployments/{deployment}/embeddings" ["POST"] = (true, params))
    (hdep : paramLookup params "deployment" = .ok dep)
    (hinput : ctx.request.body.getField "input" = some (.arr (xs.map Json.str))) :
    (let res := azure_openai_embedding ext ctx st
     let model_name := (get_model_name_from_deployment_name ctx.openai_deployments st dep).1
     let tokens := (xs.map (fun s => ext.num_tokens_from_string s model_name)).sum
     bodyField res "data"
         = some (.arr ((List.range xs.length).map (fun i => _generate_embedding ext i)))
       ∧ (bodyField res "data").bind jLen = some xs.length
       ∧ (∀ k, k < xs.length →
           ((bodyField res "data").bind (fun d => jIdx d k)).bind (fun e => e.getField "index")
             = some (.num k))
       ∧ usageField res "prompt_tokens" = some (.num tokens)
       ∧ usageField res "total_tokens" = some (.num tokens)) := by
  simp only [azure_openai_embedding, hmatch, hdep, ok_bind, jsonIndex, hinput, embedLoop_strs]
  refine ⟨?_, ?_, ?_, ?_, ?_⟩
  · simp [bodyField, handlerBody, Json.getField, List.find?, List.range_eq_range']
  · simp [bodyField, handlerBody, Json.getField, List.find?, jLen]
  · intro k hk
    simp [bodyField, handlerBody, Json.getField, List.find?, jIdx,
      List.getElem?_map, List.getElem?_range', hk, _generate_embedding]
  · simp [usageField, bodyField, handlerBody, Json.getField, List.find?]
  · simp [usageField, bodyField, handlerBody, Json.getField, List.find?]

/-- Witness for C3: embeddings input `["a", "bc"]` against the fixture
externals (character-counting tokenizer), giving two data entries and a
token sum of 3. -/
theorem embedding_list_response_witness :
    bodyField (azure_openai_embedding wExt (wCtx (.obj [("input", .arr [.str "a", .str "bc"])])) st0) "data"
      = some (.arr [_generate_embedding wExt 0, _generate_embedding wExt 1])
  ∧ (bodyField (azure_openai_embedding wExt (wCtx (.obj [("input", .arr [.str "a", .str "bc"])])) st0) "data").bind jLen
      = some 2
  ∧ usageField (azure_openai_embedding wExt (wCtx (.obj [("input", .arr [.str "a", .str "bc"])])) st0) "prompt_tokens"
      = some (.num 3)
  ∧ usageField (azure_openai_embedding wExt (wCtx (.obj [("input", .arr [.str "a", .str "bc"])])) st0) "total_tokens"
      = some (.num 3) := by
  have h := embedding_list_response wExt (wCtx (.obj [("input", .arr [.str "a", .str "bc"])])) st0
    "dep1" ["a", "bc"] [("deployment", "dep1")] rfl rfl rfl
  exact ⟨h.1, h.2.1, h.2.2.2.1, h.2.2.2.2⟩

/-- C9: for every embeddings request, the response's `model` field is the
literal `"ada"` regardless of the deployment's resolved model, yet the
deployment resolver still runs: an embeddings request for an unregistered,
not-yet-warned deployment name inserts that name into the
missing-deployment set and emits the one-time warning, while a registered
name leaves the state untouched (and the response still says `"ada"`). -/
theorem embedding_model_ada_and_resolver (ext : Externals) (ctx : RequestContext)
    (st : GenState) (dep s : String) (params : List (String × String))
    (hmatch : ext.is_route_match ctx.request
      "/openai/deployments/{deployment}/embeddings" ["POST"] = (true, params))
    (hdep : paramLookup params "deployment" = .ok dep)
    (hinput : ctx.request.body.getField "input" = some (.str s)) :
    (let res := azure_openai_embedding ext ctx st
     (registryLookup ctx.openai_deployments dep = none →
        dep ∉ st.missing_deployment_names →
          bodyField res "model" = some (.str "ada")
            ∧ stateAfter res
                = some ⟨dep :: st.missing_deployment_names, st.warnings ++ [dep]⟩)
       ∧ (∀ model, registryLookup ctx.openai_deployments dep = some model →
            bodyField res "model" = some (.str "ada") ∧ stateAfter res = some st)) := by
  constructor
  · intro hreg hmem
    simp only [azure_openai_embedding, hmatch, hdep, ok_bind, jsonIndex, hinput]
    constructor
    · simp [bodyField, handlerBody, Json.getField, List.find?]
    · simp [stateAfter, get_model_name_from_deployment_name, hreg, hmem]
  · intro model hreg
    simp only [azure_openai_embedding, hmatch, hdep, ok_bind, jsonIndex, hinput]
    constructor
    · simp [bodyField, handlerBody, Json.getField, List.find?]
    · simp [stateAfter, get_model_name_from_deployment_name, hreg]

/-- Witness for C9: a single-string embeddings request for the
unregistered `"dep1"` (fresh state) and for a registry mapping `"dep1"`
to `"m1"`. -/
theorem embedding_model_ada_and_resolver_witness :
    bodyField (azure_openai_embedding wExt (wCtx (.obj [("input", .str "hey")])) st0) "model"
      = some (.str "ada")
  ∧ stateAfter (azure_openai_embedding wExt (wCtx (.obj [("input", .str "hey")])) st0)
      = some ⟨["dep1"], ["dep1"]⟩
  ∧ bodyField (azure_openai_embedding wExt (wCtxReg (.obj [("input", .str "hey")])) st0) "model"
      = some (.str "ada")
  ∧ stateAfter (azure_openai_embedding wExt (wCtxReg (.obj [("input", .str "hey")])) st0)
      = some st0 := by
  have h1 := (embedding_model_ada_and_resolver wExt (wCtx (.obj [("input", .str "hey")])) st0
    "dep1" "hey" [("deployment", "dep1")] rfl rfl rfl).1 rfl (by simp [st0])
  have h2 := (embedding_model_ada_and_resolver wExt (wCtxReg (.obj [("input", .str "hey")])) st0
    "dep1" "hey" [("deployment", "dep1")] rfl rfl rfl).2 "m1" rfl
  exact ⟨h1.1, h1.2, h2.1, h2.2⟩

/-- C6: for every non-streaming chat completion response, the single
`prompt_filter_results` entry and the single `choices` entry each carry
exactly the four content-safety categories `hate`, `self_harm`, `sexual`
and `violence`, every one reporting `filtered = false` and severity
`"safe"`; the choice's `finish_reason` is `"length"` and
`usage.total_tokens = prompt_tokens + completion_tokens`. -/
theorem chat_completion_nonstreaming_shape (ext : Externals) (ctx : RequestContext)
    (st : GenState) (dep : String) (msgs : Json) (mt : Int) (params : List (String × String))
    (hmatch : ext.is_route_match ctx.request
      "/openai/deployments/{deployment}/chat/completions" ["POST"] = (true, params))
    (hdep : paramLookup params "deployment" = .ok dep)
    (hmsgs : ctx.request.body.getField "messages" = some msgs)
    (hmax : asInt (jsonGetD ctx.request.body "max_tokens" (.num 4096)) = .ok mt)
    (hstream : truthy (jsonGetD ctx.request.body "stream" (.bool false)) = false) :
    (let res := azure_openai_chat_completion ext ctx st
     let model_name := (get_model_name_from_deployment_name ctx.openai_deployments st dep).1
     let text := String.intercalate " " (ext.get_word (tokens_to_words mt).toNat)
     let prompt_tokens := ext.num_tokens_from_messages msgs model_name
     let completion_tokens := ext.num_tokens_from_string text model_name
     (bodyField res "prompt_filter_results").bind jLen = some 1
       ∧ ((bodyField res "prompt_filter_results").bind (fun a => jIdx a 0)).bind
             (fun e => e.getField "content_filter_results") = some content_filter_results
       ∧ (bodyField res "choices").bind jLen = some 1
       ∧ choiceField res 0 "content_filter_results" = some content_filter_results
       ∧ content_filter_results
           = .obj [("hate", .obj [("filtered", .bool false), ("severity", .str "safe")]),
                   ("self_harm", .obj [("filtered", .bool false), ("severity", .str "safe")]),
                   ("sexual", .obj [("filtered", .bool false), ("severity", .str "safe")]),
                   ("violence", .obj [("filtered", .bool false), ("severity", .str "safe")])]
       ∧ choiceField res 0 "finish_reason" = some (.str "length")
       ∧ usageField res "prompt_tokens" = some (.num prompt_tokens)
       ∧ usageField res "completion_tokens" = some (.num completion_tokens)
       ∧ usageField res "total_tokens" = some (.num (prompt_tokens + completion_tokens))) := by
  simp only [azure_openai_chat_completion, hmatch, hdep, ok_bind, jsonIndex, hmsgs, hmax,
    hstream]
  refine ⟨?_, ?_, ?_, ?_, rfl, ?_, ?_, ?_, ?_⟩ <;>
    simp [bodyField, handlerBody, usageField, choiceField, jLen, jIdx,
      Json.getField, List.find?]

/-- Witness for C6: a concrete non-streaming chat completion request with
`max_tokens = 3` against the fixture externals. -/
theorem chat_completion_nonstreaming_shape_witness :
    choiceField (azure_openai_chat_completion wExt
        (wCtx (.obj [("messages", .arr []), ("max_tokens", .num 3)])) st0) 0
        "content_filter_results"
      = some content_filter_results
  ∧ (bodyField (azure_openai_chat_completion wExt
        (wCtx (.obj [("messages", .arr []), ("max_tokens", .num 3)])) st0)
        "prompt_filter_results").bind jLen = some 1
  ∧ choiceField (azure_openai_chat_completion wExt
        (wCtx (.obj [("messages", .arr []), ("max_tokens", .num 3)])) st0) 0 "finish_reason"
      = some (.str "length")
  ∧ usageField (azure_openai_chat_completion wExt
        (wCtx (.obj [("messages", .arr []), ("max_tokens", .num 3)])) st0) "total_tokens"
      = some (.num 18) := by
  have h := chat_completion_nonstreaming_shape wExt
    (wCtx (.obj [("messages", .arr []), ("max_tokens", .num 3)])) st0
    "dep1" (.arr []) 3 [("deployment", "dep1")] rfl rfl rfl rfl rfl
  exact ⟨h.2.2.2.1, h.1, h.2.2.2.2.2.1, h.2.2.2.2.2.2.2.2⟩

/-- C7: for every completion and chat-completion request, the number of
filler words requested from the word source equals
`floor(0.72 * max_tokens)`, where `max_tokens` is taken from the request
body and defaults to 4096 when absent: the generated text is the
space-join of `get_word` at count `tokens_to_words max_tokens`, and for a
non-negative budget `tokens_to_words` is exactly the floor of
`TOKEN_TO_WORD_FACTOR * max_tokens`. -/
theorem filler_word_count_floor :
    (∀ mt : Int, 0 ≤ mt → (tokens_to_words mt : Int) = ⌊TOKEN_TO_WORD_FACTOR * (mt : Rat)⌋)
  ∧ (∀ (body : Json), body.getField "max_tokens" = none →
      asInt (jsonGetD body "max_tokens" (.num 4096)) = .ok 4096)
  ∧ (∀ (ext : Externals) (ctx : RequestContext) (st : GenState)
      (dep p : String) (mt : Int) (params : List (String × String)),
      ext.is_route_match ctx.request
          "/openai/deployments/{deployment}/completions" ["POST"] = (true, params) →
      paramLookup params "deployment" = .ok dep →
      ctx.request.body.getField "prompt" = some (.str p) →
      asInt (jsonGetD ctx.request.body "max_tokens" (.num 4096)) = .ok mt →
      choiceField (azure_openai_completion ext ctx st) 0 "text"
        = some (.str (String.intercalate " " (ext.get_word (tokens_to_words mt).toNat))))
  ∧ (∀ (ext : Externals) (ctx : RequestContext) (st : GenState)
      (dep : String) (msgs : Json) (mt : Int) (params : List (String × String)),
      ext.is_route_match ctx.request
          "/openai/deployments/{deployment}/chat/completions" ["POST"] = (true, params) →
      paramLookup params "deployment" = .ok dep →
      ctx.request.body.getField "messages" = some msgs →
      asInt (jsonGetD ctx.request.body "max_tokens" (.num 4096)) = .ok mt →
      truthy (jsonGetD ctx.request.body "stream" (.bool false)) = false →
      ((choiceField (azure_openai_chat_completion ext ctx st) 0 "message").bind
          (fun msg => msg.getField "content"))
        = some (.str (String.intercalate " " (ext.get_word (tokens_to_words mt).toNat)))) := by
  refine ⟨?_, ?_, ?_, ?_⟩
  · intro mt hmt
    have htd : (72 * mt).tdiv 100 = (72 * mt) / 100 :=
      Int.tdiv_eq_ediv (by positivity) (by norm_num)
    have hq : TOKEN_TO_WORD_FACTOR * (mt : Rat)
        = ((72 * mt : Int) : Rat) / ((100 : Nat) : Rat) := by
      rw [TOKEN_TO_WORD_FACTOR]
      push_cast
      ring
    rw [tokens_to_words, htd, hq, Rat.floor_intCast_div_natCast]
    norm_num
  · intro body h
    simp [jsonGetD, h, asInt]
  · intro ext ctx st dep p mt params hmatch hdep hprompt hmax
    simp only [azure_openai_completion, hmatch, hdep, ok_bind, jsonIndex, hprompt, hmax]
    simp [choiceField, bodyField, handlerBody, Json.getField, jIdx, List.find?]
  · intro ext ctx st dep msgs mt params hmatch hdep hmsgs hmax hstream
    simp only [azure_openai_chat_completion, hmatch, hdep, ok_bind, jsonIndex, hmsgs, hmax,
      hstream]
    simp [choiceField, bodyField, handlerBody, Json.getField, jIdx, List.find?]

/-- Witness for C7: budget 10 gives `floor(0.72 * 10) = 7` filler words;
a body without `max_tokens` falls back to 4096; and the concrete
completion response text is the join of 7 fixture words. -/
theorem filler_word_count_floor_witness :
    (tokens_to_words 10 : Int) = 7
  ∧ asInt (jsonGetD (.obj [("prompt", .str "hi")]) "max_tokens" (.num 4096)) = .ok 4096
  ∧ choiceField (azure_openai_completion wExt
        (wCtx (.obj [("prompt", .str "hi"), ("max_tokens", .num 10)])) st0) 0 "text"
      = some (.str "lorem lorem lorem lorem lorem lorem lorem") := by
  refine ⟨?_, ?_, ?_⟩
  · have h := filler_word_count_floor.1 10 (by norm_num)
    rw [h]
    have : TOKEN_TO_WORD_FACTOR * ((10 : Int) : Rat) = 36 / 5 := by
      rw [TOKEN_TO_WORD_FACTOR]; norm_num
    rw [this]
    rw [show (36 / 5 : ℚ) = ((36 : Int) : ℚ) / ((5 : Nat) : ℚ) by norm_num,
      Rat.floor_intCast_div_natCast]
    norm_num
  · exact filler_word_count_floor.2.1 (.obj [("prompt", .str "hi")]) rfl
  · exact filler_word_count_floor.2.2.1 wExt
      (wCtx (.obj [("prompt", .str "hi"), ("max_tokens", .num 10)])) st0
      "dep1" "hi" 10 [("deployment", "dep1")] rfl rfl rfl rfl

/-- C4: for every streaming chat completion whose filler text splits into
W words, exactly W chunks are emitted before the terminal sentinel; the
k-th chunk's delta content is the k-th word, space-prefixed for every
word after the first and unprefixed for the first; the final emission is
the sentinel, which renders as the literal `"[DONE]"` (not JSON-wrapped,
unlike data chunks). -/
theorem streaming_chunks_per_word (ext : Externals) (model words : String)
    (ws : List String) (hsplit : pySplitSpace words = ws) :
    (let es := send_words ext model words
     es.countP isDataChunk = ws.length
       ∧ (∀ (k : Nat) (w : String), ws[k]? = some w →
           ((chunksOf es)[k]?).bind chunkDeltaContent
             = some ((if k = 0 then "" else " ") ++ w))
       ∧ es.getLast? = some .doneSentinel
       ∧ es.countP isDoneSentinel = 1
       ∧ (∀ dump : Json → String, renderEmission dump .doneSentinel = "[DONE]")) := by
  refine ⟨?_, ?_, ?_, ?_, fun dump => rfl⟩
  · rw [send_words, hsplit]
    exact send_words_from_count_data ext model ws "" 0
  · intro k w h
    rw [send_words, hsplit, send_words_from_chunk_at ext model ws "" 0 k w h]
    simp [chunkDeltaContent_chat_chunk]
  · rw [send_words, hsplit]
    exact send_words_from_getLast ext model ws "" 0
  · rw [send_words, hsplit]
    exact send_words_from_count_done ext model ws "" 0

/-- Witness for C4: the two-word filler text `"alpha beta"`. -/
theorem streaming_chunks_per_word_witness :
    pySplitSpace "alpha beta" = ["alpha", "beta"]
  ∧ (send_words wExt "m" "alpha beta").countP isDataChunk = 2
  ∧ ((chunksOf (send_words wExt "m" "alpha beta"))[0]?).bind chunkDeltaContent = some "alpha"
  ∧ ((chunksOf (send_words wExt "m" "alpha beta"))[1]?).bind chunkDeltaContent = some " beta"
  ∧ (send_words wExt "m" "alpha beta").getLast? = some .doneSentinel := by
  have h := streaming_chunks_per_word wExt "m" "alpha beta" ["alpha", "beta"] rfl
  refine ⟨rfl, h.1, ?_, ?_, h.2.2.1⟩
  · exact (h.2.1 0 "alpha" rfl).trans (by rfl)
  · exact (h.2.1 1 "beta" rfl).trans (by rfl)

/-- C8: for every inbound request that does not match an operation's
route, that operation returns the not-applicable signal `none` and
performs no work: the published-values map and the missing-deployment
state come back exactly as they went in, and the request body is never
consulted (the result is the same for every body). -/
theorem route_mismatch_no_work :
    (∀ (ext : Externals) (ctx : RequestContext) (st : GenState) (params : List (String × String)),
      ext.is_route_match ctx.request
          "/openai/deployments/{deployment}/embeddings" ["POST"] = (false, params) →
        azure_openai_embedding ext ctx st = .ok (none, ctx.values, st))
  ∧ (∀ (ext : Externals) (ctx : RequestContext) (st : GenState) (params : List (String × String)),
      ext.is_route_match ctx.request
          "/openai/deployments/{deployment}/completions" ["POST"] = (false, params) →
        azure_openai_completion ext ctx st = .ok (none, ctx.values, st))
  ∧ (∀ (ext : Externals) (ctx : RequestContext) (st : GenState) (params : List (String × String)),
      ext.is_route_match ctx.request
          "/openai/deployments/{deployment}/chat/completions" ["POST"] = (false, params) →
        azure_openai_chat_completion ext ctx st = .ok (none, ctx.values, st)) := by
  refine ⟨?_, ?_, ?_⟩
  · intro ext ctx st params h
    simp [azure_openai_embedding, h]
  · intro ext ctx st params h
    simp [azure_openai_completion, h]
  · intro ext ctx st params h
    simp [azure_openai_chat_completion, h]

/-- Witness for C8: the never-matching fixture matcher leaves context and
state untouched on all three operations. -/
theorem route_mismatch_no_work_witness :
    azure_openai_embedding wExtNoMatch (wCtx .null) st0
      = .ok (none, (wCtx .null).values, st0)
  ∧ azure_openai_completion wExtNoMatch (wCtx .null) st0
      = .ok (none, (wCtx .null).values, st0)
  ∧ azure_openai_chat_completion wExtNoMatch (wCtx .null) st0
      = .ok (none, (wCtx .null).values, st0) :=
  ⟨route_mismatch_no_work.1 wExtNoMatch (wCtx .null) st0 [] rfl,
   route_mismatch_no_work.2.1 wExtNoMatch (wCtx .null) st0 [] rfl,
   route_mismatch_no_work.2.2 wExtNoMatch (wCtx .null) st0 [] rfl⟩

/-- C10: for every streaming chat completion whose computed word budget is
zero, the stream still emits exactly one chunk — whose delta content is
the empty string — before the sentinel, because splitting the empty word
string on single spaces yields one empty word. -/
theorem streaming_zero_budget_single_empty_chunk (ext : Externals) (ctx : RequestContext)
    (st : GenState) (dep : String) (msgs : Json) (mt : Int) (params : List (String × String))
    (hmatch : ext.is_route_match ctx.request
      "/openai/deployments/{deployment}/chat/completions" ["POST"] = (true, params))
    (hdep : paramLookup params "deployment" = .ok dep)
    (hmsgs : ctx.request.body.getField "messages" = some msgs)
    (hmax : asInt (jsonGetD ctx.request.body "max_tokens" (.num 4096)) = .ok mt)
    (hzero : (tokens_to_words mt).toNat = 0)
    (hstream : truthy (jsonGetD ctx.request.body "stream" (.bool false)) = true)
    (hwords : ext.get_word 0 = []) :
    (let model_name := (get_model_name_from_deployment_name ctx.openai_deployments st dep).1
     handlerEmissions (azure_openai_chat_completion ext ctx st)
         = some [.dataChunk (chat_chunk ext 0 model_name "" ""), .blankLine, .doneSentinel]
       ∧ ([StreamEmission.dataChunk (chat_chunk ext 0 model_name "" ""),
           StreamEmission.blankLine, StreamEmission.doneSentinel].countP isDataChunk = 1)
       ∧ chunkDeltaContent (chat_chunk ext 0 model_name "" "") = some "") := by
  simp only [azure_openai_chat_completion, hmatch, hdep, ok_bind, jsonIndex, hmsgs, hmax,
    hzero, hwords, hstream]
  refine ⟨?_, by simp [List.countP_cons, isDataChunk],
    chunkDeltaContent_chat_chunk ext 0 _ "" ""⟩
  simp only [if_true]
  exact rfl

/-- Witness for C10: a streaming chat request with `max_tokens = 1`
(`floor(0.72) = 0` filler words). -/
theorem streaming_zero_budget_single_empty_chunk_witness :
    (tokens_to_words 1).toNat = 0
  ∧ handlerEmissions (azure_openai_chat_completion wExt
        (wCtx (.obj [("messages", .arr []), ("max_tokens", .num 1), ("stream", .bool true)])) st0)
      = some [.dataChunk (chat_chunk wExt 0 "gpt-3.5-turbo-0613" "" ""), .blankLine, .doneSentinel]
  ∧ chunkDeltaContent (chat_chunk wExt 0 "gpt-3.5-turbo-0613" "" "") = some "" := by
  have h := streaming_zero_budget_single_empty_chunk wExt
    (wCtx (.obj [("messages", .arr []), ("max_tokens", .num 1), ("stream", .bool true)])) st0
    "dep1" (.arr []) 1 [("deployment", "dep1")] rfl rfl rfl rfl rfl rfl rfl
  exact ⟨rfl, h.1, h.2.2⟩

/-- C1 counterexample: a streaming chat completion request handled to
completion (a streaming response is produced) for which the operation
writes nothing at all into the published-values map: the limiter key,
operation name, deployment name and token counts are all absent, because
the source returns the `StreamingResponse` before reaching the
context-value assignments. -/
theorem chat_streaming_publishes_nothing_cex :
    handlerEmissions (azure_openai_chat_completion wExt
        (wCtx (.obj [("messages", .arr []), ("max_tokens", .num 2), ("stream", .bool true)])) st0)
      = some [.dataChunk (chat_chunk wExt 0 "gpt-3.5-turbo-0613" "lorem" "lorem"),
              .blankLine, .doneSentinel]
  ∧ publishedValue (azure_openai_chat_completion wExt
        (wCtx (.obj [("messages", .arr []), ("max_tokens", .num 2), ("stream", .bool true)])) st0)
        SimulatorKey.limiter ≠ some (.str "openai")
  ∧ publishedValue (azure_openai_chat_completion wExt
        (wCtx (.obj [("messages", .arr []), ("max_tokens", .num 2), ("stream", .bool true)])) st0)
        SimulatorKey.limiter = none
  ∧ publishedValue (azure_openai_chat_completion wExt
        (wCtx (.obj [("messages", .arr []), ("max_tokens", .num 2), ("stream", .bool true)])) st0)
        SimulatorKey.operation_name = none
  ∧ publishedValue (azure_openai_chat_completion wExt
        (wCtx (.obj [("messages", .arr []), ("max_tokens", .num 2), ("stream", .bool true)])) st0)
        SimulatorKey.deployment_name = none
  ∧ publishedValue (azure_openai_chat_completion wExt
        (wCtx (.obj [("messages", .arr []), ("max_tokens", .num 2), ("stream", .bool true)])) st0)
        SimulatorKey.openai_total_tokens = none
  ∧ publishedValue (azure_openai_chat_completion wExt
        (wCtx (.obj [("messages", .arr []), ("max_tokens", .num 2), ("stream", .bool true)])) st0)
        SimulatorKey.openai_completion_tokens = none :=
  ⟨rfl, fun h => Option.noConfusion h, rfl, rfl, rfl, rfl, rfl⟩

/-- C1 (amended): the embeddings, completions and non-streaming
chat-completions operations write, before returning, the limiter key
`"openai"`, the operation-name tag, the deployment name and the token
counts (`total_tokens` always, `completion_tokens` on the two generation
routes) into the published-values map — but a chat completion with
`stream` set to a truthy value returns its streaming response with the
published-values map completely unchanged. -/
theorem publish_context_values_amended :
    (∀ (ext : Externals) (ctx : RequestContext) (st : GenState)
       (dep s : String) (params : List (String × String)),
      ext.is_route_match ctx.request
          "/openai/deployments/{deployment}/embeddings" ["POST"] = (true, params) →
      paramLookup params "deployment" = .ok dep →
      ctx.request.body.getField "input" = some (.str s) →
        (let res := azure_openai_embedding ext ctx st
         let model_name := (get_model_name_from_deployment_name ctx.openai_deployments st dep).1
         publishedValue res .limiter = some (.str "openai")
           ∧ publishedValue res .operation_name = some (.str "embeddings")
           ∧ publishedValue res .deployment_name = some (.str dep)
           ∧ publishedValue res .openai_total_tokens
               = some (.num (ext.num_tokens_from_string s model_name))))
  ∧ (∀ (ext : Externals) (ctx : RequestContext) (st : GenState)
       (dep : String) (xs : List String) (params : List (String × String)),
      ext.is_route_match ctx.request
          "/openai/deployments/{deployment}/embeddings" ["POST"] = (true, params) →
      paramLookup params "deployment" = .ok dep →
      ctx.request.body.getField "input" = some (.arr (xs.map Json.str)) →
        (let res := azure_openai_embedding ext ctx st
         let model_name := (get_model_name_from_deployment_name ctx.openai_deployments st dep).1
         publishedValue res .limiter = some (.str "openai")
           ∧ publishedValue res .operation_name = some (.str "embeddings")
           ∧ publishedValue res .deployment_name = some (.str dep)
           ∧ publishedValue res .openai_total_tokens
               = some (.num ((xs.map (fun s => ext.num_tokens_from_string s model_name)).sum))))
  ∧ (∀ (ext : Externals) (ctx : RequestContext) (st : GenState)
       (dep p : String) (mt : Int) (params : List (String × String)),
      ext.is_route_match ctx.request
          "/openai/deployments/{deployment}/completions" ["POST"] = (true, params) →
      paramLookup params "deployment" = .ok dep →
      ctx.request.body.getField "prompt" = some (.str p) →
      asInt (jsonGetD ctx.request.body "max_tokens" (.num 4096)) = .ok mt →
        (let res := azure_openai_completion ext ctx st
         let model_name := (get_model_name_from_deployment_name ctx.openai_deployments st dep).1
         let text := String.intercalate " " (ext.get_word (tokens_to_words mt).toNat)
         let prompt_tokens := ext.num_tokens_from_string p model_name
         let completion_tokens := ext.num_tokens_from_string text model_name
         publishedValue res .limiter = some (.str "openai")
           ∧ publishedValue res .operation_name = some (.str "completions")
           ∧ publishedValue res .deployment_name = some (.str dep)
           ∧ publishedValue res .openai_completion_tokens = some (.num completion_tokens)
           ∧ publishedValue res .openai_total_tokens
               = some (.num (prompt_tokens + completion_tokens))))
  ∧ (∀ (ext : Externals) (ctx : RequestContext) (st : GenState)
       (dep : String) (msgs : Json) (mt : Int) (params : List (String × String)),
      ext.is_route_match ctx.request
          "/openai/deployments/{deployment}/chat/completions" ["POST"] = (true, params) →
      paramLookup params "deployment" = .ok dep →
      ctx.request.body.getField "messages" = some msgs →
      asInt (jsonGetD ctx.request.body "max_tokens" (.num 4096)) = .ok mt →
      truthy (jsonGetD ctx.request.body "stream" (.bool false)) = false →
        (let res := azure_openai_chat_completion ext ctx st
         let model_name := (get_model_name_from_deployment_name ctx.openai_deployments st dep).1
         let text := String.intercalate " " (ext.get_word (tokens_to_words mt).toNat)
         let prompt_tokens := ext.num_tokens_from_messages msgs model_name
         let completion_tokens := ext.num_tokens_from_string text model_name
         publishedValue res .limiter = some (.str "openai")
           ∧ publishedValue res .operation_name = some (.str "chat-completions")
           ∧ publishedValue res .deployment_name = some (.str dep)
           ∧ publishedValue res .openai_completion_tokens = some (.num completion_tokens)
           ∧ publishedValue res .openai_total_tokens
               = some (.num (prompt_tokens + completion_tokens))))
  ∧ (∀ (ext : Externals) (ctx : RequestContext) (st : GenState)
       (dep : String) (msgs : Json) (mt : Int) (params : List (String × String)),
      ext.is_route_match ctx.request
          "/openai/deployments/{deployment}/chat/completions" ["POST"] = (true, params) →
      paramLookup params "deployment" = .ok dep →
      ctx.request.body.getField "messages" = some msgs →
      asInt (jsonGetD ctx.request.body "max_tokens" (.num 4096)) = .ok mt →
      truthy (jsonGetD ctx.request.body "stream" (.bool false)) = true →
        (∀ k : SimulatorKey,
          publishedValue (azure_openai_chat_completion ext ctx st) k = ctx.values k)) := by
  refine ⟨?_, ?_, ?_, ?_, ?_⟩
  · intro ext ctx st dep s params hmatch hdep hinput
    simp only [azure_openai_embedding, hmatch, hdep, ok_bind, jsonIndex, hinput]
    refine ⟨?_, ?_, ?_, ?_⟩ <;> simp [publishedValue, dictSet]
  · intro ext ctx st dep xs params hmatch hdep hinput
    simp only [azure_openai_embedding, hmatch, hdep, ok_bind, jsonIndex, hinput,
      embedLoop_strs]
    refine ⟨?_, ?_, ?_, ?_⟩ <;> simp [publishedValue, dictSet]
  · intro ext ctx st dep p mt params hmatch hdep hprompt hmax
    simp only [azure_openai_completion, hmatch, hdep, ok_bind, jsonIndex, hprompt, hmax]
    refine ⟨?_, ?_, ?_, ?_, ?_⟩ <;> simp [publishedValue, dictSet]
  · intro ext ctx st dep msgs mt params hmatch hdep hmsgs hmax hstream
    simp only [azure_openai_chat_completion, hmatch, hdep, ok_bind, jsonIndex, hmsgs, hmax,
      hstream]
    refine ⟨?_, ?_, ?_, ?_, ?_⟩ <;> simp [publishedValue, dictSet]
  · intro ext ctx st dep msgs mt params hmatch hdep hmsgs hmax hstream k
    simp only [azure_openai_chat_completion, hmatch, hdep, ok_bind, jsonIndex, hmsgs, hmax,
      hstream]
    simp [publishedValue]

/-- Witness for C1's amended theorem: the published values of the fixture
embeddings, completion and non-streaming chat requests, and the unchanged
(empty) map of the fixture streaming chat request. -/
theorem publish_context_values_amended_witness :
    publishedValue (azure_openai_embedding wExt (wCtx (.obj [("input", .str "hey")])) st0)
        .limiter = some (.str "openai")
  ∧ publishedValue (azure_openai_embedding wExt (wCtx (.obj [("input", .str "hey")])) st0)
        .operation_name = some (.str "embeddings")
  ∧ publishedValue (azure_openai_embedding wExt (wCtx (.obj [("input", .str "hey")])) st0)
        .openai_total_tokens = some (.num 3)
  ∧ publishedValue (azure_openai_completion wExt
        (wCtx (.obj [("prompt", .str "hi"), ("max_tokens", .num 3)])) st0)
        .openai_completion_tokens = some (.num 11)
  ∧ publishedValue (azure_openai_chat_completion wExt
        (wCtx (.obj [("messages", .arr []), ("max_tokens", .num 3)])) st0)
        .openai_total_tokens = some (.num 18)
  ∧ publishedValue (azure_openai_chat_completion wExt
        (wCtx (.obj [("messages", .arr []), ("max_tokens", .num 2), ("stream", .bool true)])) st0)
        .limiter = none := by
  have h1 := publish_context_values_amended.1 wExt (wCtx (.obj [("input", .str "hey")])) st0
    "dep1" "hey" [("deployment", "dep1")] rfl rfl rfl
  have h3 := publish_context_values_amended.2.2.1 wExt
    (wCtx (.obj [("prompt", .str "hi"), ("max_tokens", .num 3)])) st0
    "dep1" "hi" 3 [("deployment", "dep1")] rfl rfl rfl rfl
  have h4 := publish_context_values_amended.2.2.2.1 wExt
    (wCtx (.obj [("messages", .arr []), ("max_tokens", .num 3)])) st0
    "dep1" (.arr []) 3 [("deployment", "dep1")] rfl rfl rfl rfl rfl
  have h5 := publish_context_values_amended.2.2.2.2 wExt
    (wCtx (.obj [("messages", .arr []), ("max_tokens", .num 2), ("stream", .bool true)])) st0
    "dep1" (.arr []) 2 [("deployment", "dep1")] rfl rfl rfl rfl rfl SimulatorKey.limiter
  exact ⟨h1.1, h1.2.1, h1.2.2.2, h3.2.2.2.1, h4.2.2.2.2, h5.trans rfl⟩

end AoaiSim
